import Mathlib

/-!
# Verification of the perp-dex-tools trading engine

Shallow embedding of the maker-order trading bot (`trading_bot.py`,
`runbot.py`, `exchanges/edgex.py`, `exchanges/aster.py`,
`exchanges/backpack.py`) over exact rational arithmetic (`ℚ` models the
Python `Decimal` values used throughout the source).  External exchange
calls (order-book fetches, placements, cancels, position queries) are
modelled as oracle inputs passed explicitly to each embedded function.
-/

namespace PerpDex

/-- Trade direction / order side (`'buy'` / `'sell'` strings in the source). -/
inductive Direction
  | buy
  | sell
deriving DecidableEq, Repr

/-- `TradingConfig` (trading_bot.py:18-46), restricted to the fields the
embedded functions read.  All numeric fields are `Decimal` in the source. -/
structure TradingConfig where
  quantity : ℚ
  takeProfit : ℚ
  tickSize : ℚ
  direction : Direction
  maxOrders : ℕ
  waitTime : ℚ
  exchange : String
  gridStep : ℚ
  stopPrice : ℚ
  pausePrice : ℚ
  asterBoost : Bool
  stopLossThreshold : ℚ
  takeProfitThreshold : ℚ
  makerAggressive : Bool
  globalStopLossPercent : ℚ
  globalTakeProfitPercent : ℚ
deriving DecidableEq, Repr

/-- `TradingConfig.close_order_side` (trading_bot.py:43-46):
`'buy' if direction == "sell" else 'sell'`. -/
def TradingConfig.closeOrderSide (c : TradingConfig) : Direction :=
  if c.direction = Direction.sell then Direction.buy else Direction.sell

/-- `OrderResult` (exchanges/base.py:11-21): standardized order result. -/
structure OrderResult where
  success : Bool
  orderId : Option String
  side : Option Direction
  size : Option ℚ
  price : Option ℚ
  status : Option String
  errorMessage : Option String
  filledSize : Option ℚ
deriving DecidableEq, Repr

/-- An `OrderResult` carrying only `success=False` and an error message,
mirroring `OrderResult(success=False, error_message=...)`. -/
def OrderResult.failure (msg : String) : OrderResult :=
  ⟨false, none, none, none, none, none, some msg, none⟩

/-! ## Order pricing (edgex.py:176-183, aster.py:496-501, backpack.py:329-346) -/

/-- Open-order price in `EdgeXClient.place_open_order` (edgex.py:176-183):
buy ⇒ `best_ask - tick_size`, sell ⇒ `best_bid + tick_size`. -/
def edgexOpenOrderPrice (tickSize bestBid bestAsk : ℚ) (direction : Direction) : ℚ :=
  match direction with
  | Direction.buy => bestAsk - tickSize
  | Direction.sell => bestBid + tickSize

/-- Open-order price in `AsterClient.place_open_order` (aster.py:496-501):
identical full-tick formula, no aggressiveness flag. -/
def asterOpenOrderPrice (tickSize bestBid bestAsk : ℚ) (direction : Direction) : ℚ :=
  match direction with
  | Direction.buy => bestAsk - tickSize
  | Direction.sell => bestBid + tickSize

/-- Open-order price in `BackpackClient.place_open_order` (backpack.py:329-346):
half a tick toward the market when `maker_aggressive`, else a full tick. -/
def backpackOpenOrderPrice (makerAggressive : Bool) (tickSize bestBid bestAsk : ℚ)
    (direction : Direction) : ℚ :=
  match direction with
  | Direction.buy =>
      if makerAggressive then bestAsk - tickSize / 2 else bestAsk - tickSize
  | Direction.sell =>
      if makerAggressive then bestBid + tickSize / 2 else bestBid + tickSize

/-- Close-order price adjustment in `EdgeXClient.place_close_order`
(edgex.py:260-271): sell with `price <= best_bid` clamps to `best_bid + tick`,
buy with `price >= best_ask` clamps to `best_ask - tick`, otherwise the
caller-supplied price is kept. -/
def edgexAdjustClosePrice (tickSize bestBid bestAsk price : ℚ) (side : Direction) : ℚ :=
  match side with
  | Direction.sell => if price ≤ bestBid then bestBid + tickSize else price
  | Direction.buy => if price ≥ bestAsk then bestAsk - tickSize else price

/-- Close-order price adjustment in `AsterClient.place_close_order`
(aster.py:567-578): same full-tick clamp as edgex. -/
def asterAdjustClosePrice (tickSize bestBid bestAsk price : ℚ) (side : Direction) : ℚ :=
  match side with
  | Direction.sell => if price ≤ bestBid then bestBid + tickSize else price
  | Direction.buy => if price ≥ bestAsk then bestAsk - tickSize else price

/-- Close-order price adjustment in `BackpackClient.place_close_order`
(backpack.py:470-489): clamps by half a tick when `maker_aggressive`,
else by a full tick. -/
def backpackAdjustClosePrice (makerAggressive : Bool) (tickSize bestBid bestAsk price : ℚ)
    (side : Direction) : ℚ :=
  match side with
  | Direction.sell =>
      if price ≤ bestBid then
        if makerAggressive then bestBid + tickSize / 2 else bestBid + tickSize
      else price
  | Direction.buy =>
      if price ≥ bestAsk then
        if makerAggressive then bestAsk - tickSize / 2 else bestAsk - tickSize
      else price

/-- Modelled from the spec: `round_to_tick` is called by every exchange client
(e.g. edgex.py:272, backpack.py:491, aster.py:580) but its definition is not
present under src/.  Spec §4.1: "All prices are rounded to the nearest tick
(round-half-up) before submission." -/
def roundToTick (tickSize price : ℚ) : ℚ :=
  ⌊price / tickSize + 1 / 2⌋ * tickSize

/-- The price string actually submitted by `EdgeXClient.place_close_order`
(edgex.py:272-277): the adjusted price, rounded to the tick grid. -/
def edgexSubmittedClosePrice (tickSize bestBid bestAsk price : ℚ) (side : Direction) : ℚ :=
  roundToTick tickSize (edgexAdjustClosePrice tickSize bestBid bestAsk price side)

/-- The price submitted by `AsterClient.place_close_order` (aster.py:580-588). -/
def asterSubmittedClosePrice (tickSize bestBid bestAsk price : ℚ) (side : Direction) : ℚ :=
  roundToTick tickSize (asterAdjustClosePrice tickSize bestBid bestAsk price side)

/-- The price submitted by `BackpackClient.place_close_order`
(backpack.py:491-498). -/
def backpackSubmittedClosePrice (makerAggressive : Bool)
    (tickSize bestBid bestAsk price : ℚ) (side : Direction) : ℚ :=
  roundToTick tickSize (backpackAdjustClosePrice makerAggressive tickSize bestBid bestAsk price side)

/-! ## Price stop/pause condition (trading_bot.py:407-434) -/

/-- `TradingBot._check_price_condition` (trading_bot.py:407-434) as a function
of the order book it would fetch.  `Except.error` models the
`raise ValueError("No bid/ask data available")` path.  The source's chained
comparison `pause_price == stop_price == -1` returns `(False, False)` before
any fetch; here that is visible as the result not depending on `bbo`. -/
def checkPriceCondition (cfg : TradingConfig) (bbo : ℚ × ℚ) :
    Except Unit (Bool × Bool) :=
  if cfg.pausePrice = cfg.stopPrice ∧ cfg.stopPrice = -1 then
    Except.ok (false, false)
  else
    let bestBid := bbo.1
    let bestAsk := bbo.2
    if bestBid ≤ 0 ∨ bestAsk ≤ 0 ∨ bestBid ≥ bestAsk then
      Except.error ()
    else
      let stopTrading :=
        if cfg.stopPrice ≠ -1 then
          match cfg.direction with
          | Direction.buy => bestAsk ≥ cfg.stopPrice
          | Direction.sell => bestBid ≤ cfg.stopPrice
        else false
      let pauseTrading :=
        if cfg.pausePrice ≠ -1 then
          match cfg.direction with
          | Direction.buy => bestAsk ≥ cfg.pausePrice
          | Direction.sell => bestBid ≤ cfg.pausePrice
        else false
      Except.ok (stopTrading, pauseTrading)

/-! ## Grid-step gate (trading_bot.py:380-405) -/

/-- One element of `self.active_close_orders` (trading_bot.py:516-523). -/
structure CloseOrderRec where
  id : String
  price : ℚ
  size : ℚ
deriving DecidableEq, Repr

/-- `min(self.active_close_orders, key=lambda o: o["price"])` — Python's `min`
keeps the first element attaining the minimal key. -/
def minByPrice : CloseOrderRec → List CloseOrderRec → CloseOrderRec
  | best, [] => best
  | best, o :: rest => minByPrice (if o.price < best.price then o else best) rest

/-- `max(self.active_close_orders, key=lambda o: o["price"])` — first maximal
element. -/
def maxByPrice : CloseOrderRec → List CloseOrderRec → CloseOrderRec
  | best, [] => best
  | best, o :: rest => maxByPrice (if o.price > best.price then o else best) rest

/-- The `picker` of `TradingBot._meet_grid_step_condition`
(trading_bot.py:382-384): `min` by price for `buy`, `max` by price for `sell`. -/
def nextCloseOrder (direction : Direction) (o : CloseOrderRec) (rest : List CloseOrderRec) :
    CloseOrderRec :=
  match direction with
  | Direction.buy => minByPrice o rest
  | Direction.sell => maxByPrice o rest

/-- `TradingBot._meet_grid_step_condition` (trading_bot.py:380-405).
`Except.error` models `raise ValueError("No bid/ask data available")`. -/
def meetGridStepCondition (cfg : TradingConfig) (activeCloseOrders : List CloseOrderRec)
    (bbo : ℚ × ℚ) : Except Unit Bool :=
  match activeCloseOrders with
  | [] => Except.ok true
  | o :: rest =>
    let nextClosePrice := (nextCloseOrder cfg.direction o rest).price
    let bestBid := bbo.1
    let bestAsk := bbo.2
    if bestBid ≤ 0 ∨ bestAsk ≤ 0 ∨ bestBid ≥ bestAsk then
      Except.error ()
    else
      match cfg.direction with
      | Direction.buy =>
        let newOrderClosePrice := bestAsk * (1 + cfg.takeProfit / 100)
        Except.ok (decide (nextClosePrice / newOrderClosePrice > 1 + cfg.gridStep / 100))
      | Direction.sell =>
        let newOrderClosePrice := bestBid * (1 - cfg.takeProfit / 100)
        Except.ok (decide (newOrderClosePrice / nextClosePrice > 1 + cfg.gridStep / 100))

/-! ## Substring test (Python `in` on strings) -/

/-- Python's `needle in hay` substring test (some suffix of `hay` starts
with `needle`). -/
def containsSub (needle hay : String) : Bool :=
  hay.toList.tails.any (fun t => needle.toList.isPrefixOf t)

/-! ## EdgeX open-order retry loop (edgex.py:164-243) -/

/-- Response of `create_limit_order` as inspected by edgex.py:194-200. -/
inductive EdgexCreateResp
  | noData
  | noOrderId
  | withOrderId (oid : String)
deriving DecidableEq, Repr

/-- Oracle for one iteration of the edgex placement loop: either the bodies of
the `try` succeed with these observations, or an exception is raised. -/
inductive EdgexAttempt
  | observed (bbo : ℚ × ℚ) (createResp : EdgexCreateResp) (infoStatus : Option String)
  | raised (msg : String)
deriving DecidableEq, Repr

/-- `EdgeXClient.place_open_order` (edgex.py:164-243): the
`while retry_count < max_retries` loop with `max_retries = 15`, starting from
the given `retryCount`.  Attempt `i` reads oracle `attempts i` (a fresh
order-book fetch and venue response each iteration). -/
def edgexPlaceOpenOrderFrom (tickSize quantity : ℚ) (direction : Direction)
    (attempts : ℕ → EdgexAttempt) (retryCount : ℕ) : OrderResult :=
  if h : retryCount < 15 then
    match attempts retryCount with
    | EdgexAttempt.raised msg =>
        if retryCount < 15 - 1 then
          edgexPlaceOpenOrderFrom tickSize quantity direction attempts (retryCount + 1)
        else OrderResult.failure msg
    | EdgexAttempt.observed bbo createResp infoStatus =>
        if bbo.1 ≤ 0 ∨ bbo.2 ≤ 0 then OrderResult.failure ("Invalid bid/ask prices")
        else
          let orderPrice := edgexOpenOrderPrice tickSize bbo.1 bbo.2 direction
          match createResp with
          | EdgexCreateResp.noData => OrderResult.failure ("Failed to place order")
          | EdgexCreateResp.noOrderId => OrderResult.failure ("No order ID in response")
          | EdgexCreateResp.withOrderId oid =>
            match infoStatus with
            | some s =>
                if s = "CANCELED" then
                  if retryCount < 15 - 1 then
                    edgexPlaceOpenOrderFrom tickSize quantity direction attempts (retryCount + 1)
                  else OrderResult.failure ("Order rejected after 15 attempts")
                else if s = "OPEN" ∨ s = "PARTIALLY_FILLED" ∨ s = "FILLED" then
                  ⟨true, some oid, some direction, some quantity, some orderPrice, some s,
                    none, none⟩
                else OrderResult.failure ("Unexpected order status: " ++ s)
            | none =>
                ⟨true, some oid, some direction, some quantity, some orderPrice, none,
                  none, none⟩
  else OrderResult.failure ("Max retries exceeded")
termination_by 15 - retryCount
decreasing_by all_goals omega

/-- `EdgeXClient.place_open_order` entered with `retry_count = 0`. -/
def edgexPlaceOpenOrder (tickSize quantity : ℚ) (direction : Direction)
    (attempts : ℕ → EdgexAttempt) : OrderResult :=
  edgexPlaceOpenOrderFrom tickSize quantity direction attempts 0

/-! ## Backpack open-order retry loop (backpack.py:316-455) -/

/-- Response of `execute_order` as inspected by backpack.py:359-392. -/
inductive BackpackExecResp
  | missing
  | errorCode (message : String)
  | placed (orderId : Option String)
deriving DecidableEq, Repr

/-- Outcome of the post-placement fill-wait (backpack.py:398-453):
fully filled within the timeout, timeout with zero fill (cancel plus market
replacement whose response is `marketResp`; `none` models a failed market
order), or timeout with a partial fill. -/
inductive BackpackWaitOutcome
  | filledInTime
  | timeoutNoFill (marketResp : Option (Option String))
  | timeoutPartial
deriving DecidableEq, Repr

/-- Oracle for one iteration of the backpack placement loop. -/
structure BackpackOpenAttempt where
  bbo : ℚ × ℚ
  resp : BackpackExecResp
  marginCloseRes : OrderResult
  wait : BackpackWaitOutcome
deriving DecidableEq, Repr

/-- `BackpackClient.place_open_order` (backpack.py:316-455): the
`while retry_count < max_retries` loop with `max_retries = 15`;
`retry_count` is incremented at the top of the body, and only the
`'code' in order_result` branch loops (unless the message reports
insufficient margin, in which case the result of the freeing close order is
returned).  Exhausting the loop returns `Max retries exceeded`. -/
def backpackPlaceOpenOrderFrom (makerAggressive : Bool) (tickSize quantity : ℚ)
    (direction : Direction) (attempts : ℕ → BackpackOpenAttempt)
    (retryCount : ℕ) : OrderResult :=
  if h : retryCount < 15 then
    let e := attempts retryCount
    if e.bbo.1 ≤ 0 ∨ e.bbo.2 ≤ 0 then OrderResult.failure ("Invalid bid/ask prices")
    else
      let orderPrice := backpackOpenOrderPrice makerAggressive tickSize e.bbo.1 e.bbo.2 direction
      match e.resp with
      | BackpackExecResp.missing => OrderResult.failure ("Failed to place order")
      | BackpackExecResp.errorCode msg =>
          if containsSub ("Insufficient margin to open a new order") msg then e.marginCloseRes
          else backpackPlaceOpenOrderFrom makerAggressive tickSize quantity direction attempts
            (retryCount + 1)
      | BackpackExecResp.placed none => OrderResult.failure ("No order ID in response")
      | BackpackExecResp.placed (some oid) =>
        match e.wait with
        | BackpackWaitOutcome.filledInTime =>
            ⟨true, some oid, some direction, some quantity, some orderPrice, some "FILLED",
              none, none⟩
        | BackpackWaitOutcome.timeoutNoFill none =>
            OrderResult.failure ("Failed to place market replacement order")
        | BackpackWaitOutcome.timeoutNoFill (some newOrderId) =>
            ⟨true, newOrderId, some direction, some quantity, some 0, some "FILLED",
              none, none⟩
        | BackpackWaitOutcome.timeoutPartial =>
            ⟨true, some oid, some direction, some quantity, some orderPrice,
              some "PARTIALLY_FILLED", none, none⟩
  else OrderResult.failure ("Max retries exceeded")
termination_by 15 - retryCount
decreasing_by all_goals omega

/-- `BackpackClient.place_open_order` entered with `retry_count = 0`. -/
def backpackPlaceOpenOrder (makerAggressive : Bool) (tickSize quantity : ℚ)
    (direction : Direction) (attempts : ℕ → BackpackOpenAttempt) : OrderResult :=
  backpackPlaceOpenOrderFrom makerAggressive tickSize quantity direction attempts 0

/-! ## Aster open-order loop (aster.py:474-533) — `while True`, no retry bound -/

/-- Oracle for one iteration of the aster placement loop: the active open
orders seen by the every-5th-attempt sanity check, the fetched book, and the
final order status after the 2-second `NEW` poll (aster.py:519-524). -/
structure AsterOpenAttempt where
  activeOpenOrders : ℕ
  bbo : ℚ × ℚ
  orderId : String
  orderStatus : String
deriving DecidableEq, Repr

/-- `AsterClient.place_open_order` (aster.py:474-533): an unbounded
`while True` loop in the source.  It is embedded with the list of per-attempt
oracles as fuel: `none` means the loop consumed every provided attempt and is
still running (an `EXPIRED` post-only rejection just `continue`s);
`some (Except.error msg)` models the `raise Exception` on the abnormal
active-open-orders check; `some (Except.ok r)` is a returned `OrderResult`.
`attempt` is the counter value before the body's `attempt += 1`. -/
def asterPlaceOpenOrderFrom (tickSize quantity : ℚ) (direction : Direction)
    (attempt : ℕ) : List AsterOpenAttempt → Option (Except String OrderResult)
  | [] => none
  | e :: rest =>
    let att := attempt + 1
    if att % 5 = 0 ∧ e.activeOpenOrders > 1 then
      some (Except.error ("[OPEN] ERROR: Active open orders abnormal"))
    else if e.bbo.1 ≤ 0 ∨ e.bbo.2 ≤ 0 then
      some (Except.ok (OrderResult.failure ("Invalid bid/ask prices")))
    else
      let price := asterOpenOrderPrice tickSize e.bbo.1 e.bbo.2 direction
      if e.orderStatus = "NEW" ∨ e.orderStatus = "PARTIALLY_FILLED" then
        some (Except.ok ⟨true, some e.orderId, some direction, some quantity, some price,
          some "OPEN", none, none⟩)
      else if e.orderStatus = "FILLED" then
        some (Except.ok ⟨true, some e.orderId, some direction, some quantity, some price,
          some "FILLED", none, none⟩)
      else if e.orderStatus = "EXPIRED" then
        asterPlaceOpenOrderFrom tickSize quantity direction att rest
      else
        some (Except.ok (OrderResult.failure ("Unknown order status: " ++ e.orderStatus)))

/-- `AsterClient.place_open_order` entered with `attempt = 0`. -/
def asterPlaceOpenOrder (tickSize quantity : ℚ) (direction : Direction)
    (attempts : List AsterOpenAttempt) : Option (Except String OrderResult) :=
  asterPlaceOpenOrderFrom tickSize quantity direction 0 attempts

/-- A post-only rejection attempt for the aster loop: a healthy book, no
abnormal open orders, and the venue expiring the GTX order each time. -/
def asterExpiredAttempt : AsterOpenAttempt :=
  ⟨0, (100, 101), "1", "EXPIRED"⟩

/-! ## Backpack cancel with fill inference (backpack.py:577-627) -/

/-- The cancel response as inspected by backpack.py:586-623: missing/falsy,
an error (`'code'` present) with its message and optional
`executedQuantity`, or a clean response with optional `executedQuantity`. -/
inductive BackpackCancelResp
  | missing
  | errorCode (message : String) (executedQuantity : Option ℚ)
  | clean (executedQuantity : Option ℚ)
deriving DecidableEq, Repr

/-- ASCII lowercase of one character (the fragment of Python's `str.lower`
relevant to these ASCII messages). -/
def lowerChar (c : Char) : Char :=
  if c.toNat ≥ 65 ∧ c.toNat ≤ 90 then Char.ofNat (c.toNat + 32) else c

/-- `message.lower()` as a character list. -/
def lowerStr (s : String) : List Char := s.toList.map lowerChar

/-- Substring test against a character list. -/
def containsSubL (needle : String) (hay : List Char) : Bool :=
  hay.tails.any (fun t => needle.toList.isPrefixOf t)

/-- The `'Order not found' in message or 'order not found' in message.lower()`
test (backpack.py:595). -/
def cancelMsgNotFound (message : String) : Bool :=
  containsSub ("Order not found") message
    || containsSubL ("order not found") (lowerStr message)

/-- `BackpackClient.cancel_order` (backpack.py:577-627) as a function of the
cancel response and of the two inference oracles: `orderInfoFill` is
`get_order_info(order_id).filled_size` (`none` when the query returns no
order) and `positionAmt` is `get_account_positions()`. -/
def backpackCancelOrder (cfgQuantity : ℚ) (resp : BackpackCancelResp)
    (orderInfoFill : Option ℚ) (positionAmt : ℚ) : OrderResult :=
  match resp with
  | BackpackCancelResp.missing => OrderResult.failure ("Failed to cancel order")
  | BackpackCancelResp.errorCode message executedQuantity =>
      if cancelMsgNotFound message then
        match orderInfoFill with
        | some f => ⟨true, none, none, none, none, none, none, some f⟩
        | none => ⟨true, none, none, none, none, none, none,
            some (min cfgQuantity positionAmt)⟩
      else
        match executedQuantity with
        | some q => ⟨true, none, none, none, none, none, none, some q⟩
        | none => ⟨true, none, none, none, none, none, none, some 0⟩
  | BackpackCancelResp.clean executedQuantity =>
      ⟨true, none, none, none, none, none, none, some (executedQuantity.getD 0)⟩

/-! ## Fill reconciliation: the cancel branch of `_handle_order_result`
(trading_bot.py:284-336) -/

/-- Oracles for the cancel branch: the filled size reported by the cancel
call (used directly when `config.exchange == "backpack"`, line 300-301), and
otherwise either the `CANCELED` websocket event observed within the 5-second
wait (whose handler recorded `wsFilledSize` into `order_filled_amount`,
trading_bot.py:146-155) or, on timeout, the `get_order_info` query
(trading_bot.py:307-309). -/
structure CancelBranchEnv where
  cancelFilledSize : ℚ
  canceledInTime : Bool
  wsFilledSize : ℚ
  infoFilledSize : ℚ
deriving DecidableEq, Repr

/-- The value of `self.order_filled_amount` after the cancel reconciliation
(trading_bot.py:300-309). -/
def orderFilledAmountAfterCancel (exchange : String) (env : CancelBranchEnv) : ℚ :=
  if exchange = "backpack" then env.cancelFilledSize
  else if env.canceledInTime then env.wsFilledSize
  else env.infoFilledSize

/-- A close-order request as issued by trading_bot.py:311-330. -/
structure CloseOrderReq where
  size : ℚ
  price : Option ℚ
  side : Direction
deriving DecidableEq, Repr

/-- The close-order issuance of the cancel branch (trading_bot.py:311-336):
when the discovered filled amount is positive, a close order sized to
`self.order_filled_amount` is placed; `Except.error` models the `TypeError`
raised in the `aster_boost` sub-branch, where `place_close_order` is called
with three arguments (trading_bot.py:314-318) against its four-parameter
signature, so no close order is issued there. -/
def handleOrderResultCancelBranch (cfg : TradingConfig) (filledPrice : ℚ)
    (env : CancelBranchEnv) : Except Unit (Option CloseOrderReq) :=
  let amt := orderFilledAmountAfterCancel cfg.exchange env
  if amt > 0 then
    let closeSide := cfg.closeOrderSide
    if cfg.asterBoost then
      Except.error ()
    else
      let closePrice :=
        if closeSide = Direction.sell then filledPrice * (1 + cfg.takeProfit / 100)
        else filledPrice * (1 - cfg.takeProfit / 100)
      Except.ok (some ⟨amt, some closePrice, closeSide⟩)
  else Except.ok none

/-! ## Periodic status / mismatch detection -/

/-- `EdgeXTradingBot._log_status_periodically` (runbot.py:739-829), reduced to
its decision content: when the 30-second window has elapsed (or on the first
call), sum the active close-order sizes, compare
`abs(position_amt - active_close_amount)` against `2 * quantity`, and on a
mismatch request shutdown.  Returns `(mismatchFired, newShutdownRequested)`. -/
def runbotLogStatusPeriodically (now lastLogTime quantity positionAmt : ℚ)
    (activeCloseSizes : List ℚ) (shutdownRequested : Bool) : Bool × Bool :=
  if now - lastLogTime > 30 ∨ lastLogTime = 0 then
    let activeCloseAmount := activeCloseSizes.sum
    if |positionAmt - activeCloseAmount| > 2 * quantity then (true, true)
    else (false, shutdownRequested)
  else (false, shutdownRequested)

/-- `TradingBot._log_status_periodically` (trading_bot.py:367-378): the
modular bot's version only logs recent-fill information inside its 30-second
window and falls off the end of the function — Python returns `None`.  It
computes no mismatch verdict, so its result does not depend on the position,
the close orders, or the configured quantity. -/
def tradingBotLogStatusPeriodically (now lastLogTime quantity positionAmt : ℚ)
    (activeCloseSizes : List ℚ) : Option Bool :=
  none

/-! ## Per-trade and global SL/TP blocks of `TradingBot.run`
(trading_bot.py:442-677) -/

/-- Actions the embedded loop can emit toward the exchange / notifier.
`placeOpenOrderAttempt` stands for the call to
`_place_and_monitor_open_order` (trading_bot.py:661). -/
inductive Action
  | placeMarketOrder (quantity : ℚ) (side : Direction)
  | larkNotify
  | placeOpenOrderAttempt
  | sleepFor (seconds : ℚ)
deriving DecidableEq, Repr

/-- Oracles for the pre-clearing SL/TP check (trading_bot.py:475-504). -/
structure SlTp1Env where
  bbo : ℚ × ℚ
  positionAfter : ℚ
deriving DecidableEq, Repr

/-- Result of an SL/TP block: emitted actions, the (possibly cleared)
`last_filled_price`, and the (possibly re-polled) position. -/
structure SlTpResult where
  actions : List Action
  lastFilledPrice : Option ℚ
  positionAmt : ℚ
deriving DecidableEq, Repr

/-- The pre-clearing SL/TP check (trading_bot.py:475-504): runs only with a
recorded positive fill price and a valid book; compares the percentage P&L of
the mid price against the per-trade thresholds; on either trigger places a
market close, unconditionally sets `last_filled_price = None`, and re-polls
the position. -/
def slTpImmediateCheck (cfg : TradingConfig) (lastFilledPrice : Option ℚ)
    (positionAmt : ℚ) (env : SlTp1Env) : SlTpResult :=
  match lastFilledPrice with
  | some entry =>
    if entry > 0 then
      let bestBid := env.bbo.1
      let bestAsk := env.bbo.2
      if bestBid > 0 ∧ bestAsk > 0 then
        let markPrice := (bestBid + bestAsk) / 2
        let profitPct :=
          if cfg.direction = Direction.buy then (markPrice - entry) / entry * 100
          else (entry - markPrice) / entry * 100
        if profitPct ≤ -|cfg.stopLossThreshold| then
          ⟨[Action.placeMarketOrder positionAmt cfg.closeOrderSide, Action.sleepFor 1],
            none, env.positionAfter⟩
        else if profitPct ≥ |cfg.takeProfitThreshold| then
          ⟨[Action.placeMarketOrder positionAmt cfg.closeOrderSide, Action.sleepFor 1],
            none, env.positionAfter⟩
        else ⟨[], lastFilledPrice, positionAmt⟩
      else ⟨[], lastFilledPrice, positionAmt⟩
    else ⟨[], lastFilledPrice, positionAmt⟩
  | none => ⟨[], lastFilledPrice, positionAmt⟩

/-- Oracles for `_clear_existing_position` (trading_bot.py:340-365): the
position it queries itself and whether its market close succeeds. -/
structure ClearPositionEnv where
  positionAmt : ℚ
  closeSuccess : Bool
deriving DecidableEq, Repr

/-- `TradingBot._clear_existing_position` (trading_bot.py:340-365): market
closes any nonzero position.  Note that it never touches
`last_filled_price` — its result carries no fill-price component at all. -/
def clearExistingPosition (cfg : TradingConfig) (env : ClearPositionEnv) :
    List Action × Bool :=
  if env.positionAmt > 0 then
    if env.closeSuccess then
      ([Action.placeMarketOrder env.positionAmt cfg.closeOrderSide, Action.sleepFor 2], true)
    else
      ([Action.placeMarketOrder env.positionAmt cfg.closeOrderSide], false)
  else ([], true)

/-- Oracles for the post-projection SL/TP check (trading_bot.py:527-577). -/
structure SlTp2Env where
  bbo : ℚ × ℚ
  closeSuccess : Bool
  positionAfter : ℚ
deriving DecidableEq, Repr

/-- The post-projection SL/TP check (trading_bot.py:527-577): uses the mid
price with no book-validity check, fractional thresholds
(`threshold / 100`), and clears `last_filled_price` only when the market
close reports success. -/
def slTpCheck2 (cfg : TradingConfig) (lastFilledPrice : Option ℚ)
    (positionAmt : ℚ) (env : SlTp2Env) : SlTpResult :=
  match lastFilledPrice with
  | some lastPrice =>
    if positionAmt > 0 then
      let markPrice := (env.bbo.1 + env.bbo.2) / 2
      if lastPrice > 0 then
        let profitFrac :=
          if cfg.direction = Direction.buy then (markPrice - lastPrice) / lastPrice
          else (lastPrice - markPrice) / lastPrice
        let stopFrac := cfg.stopLossThreshold / 100
        let tpFrac := cfg.takeProfitThreshold / 100
        if profitFrac ≤ -stopFrac then
          if env.closeSuccess then
            ⟨[Action.placeMarketOrder positionAmt cfg.closeOrderSide, Action.sleepFor 1],
              none, env.positionAfter⟩
          else
            ⟨[Action.placeMarketOrder positionAmt cfg.closeOrderSide],
              lastFilledPrice, positionAmt⟩
        else if profitFrac ≥ tpFrac then
          if env.closeSuccess then
            ⟨[Action.placeMarketOrder positionAmt cfg.closeOrderSide, Action.sleepFor 1],
              none, env.positionAfter⟩
          else
            ⟨[Action.placeMarketOrder positionAmt cfg.closeOrderSide],
              lastFilledPrice, positionAmt⟩
        else ⟨[], lastFilledPrice, positionAmt⟩
      else ⟨[], lastFilledPrice, positionAmt⟩
    else ⟨[], lastFilledPrice, positionAmt⟩
  | none => ⟨[], lastFilledPrice, positionAmt⟩

/-- Result of the global SL/TP block. -/
structure GlobalCheckResult where
  actions : List Action
  shutdownRequested : Bool
  triggered : Bool
deriving DecidableEq, Repr

/-- The global wide-range SL/TP check (trading_bot.py:579-632): with a
nonzero position, a recorded fill price, and a valid book, compares the
fractional P&L against `global_stop_loss_percent / 100` and
`global_take_profit_percent / 100`; on either trigger it market-closes,
notifies the external webhook, sets `shutdown_requested = True` and
`continue`s.  A zero entry price raises `ZeroDivisionError` in the source,
swallowed by the surrounding `except` (no trigger); it never modifies
`last_filled_price`. -/
def globalSlTpCheck (cfg : TradingConfig) (lastFilledPrice : Option ℚ)
    (positionAmt : ℚ) (bbo : ℚ × ℚ) : GlobalCheckResult :=
  if positionAmt > 0 then
    match lastFilledPrice with
    | some entry =>
      if bbo.1 > 0 ∧ bbo.2 > 0 then
        if entry ≠ 0 then
          let markPrice := (bbo.1 + bbo.2) / 2
          let globalProfitFrac :=
            if cfg.direction = Direction.buy then (markPrice - entry) / entry
            else (entry - markPrice) / entry
          let globalSlFrac := cfg.globalStopLossPercent / 100
          let globalTpFrac := cfg.globalTakeProfitPercent / 100
          if globalProfitFrac ≤ -globalSlFrac then
            ⟨[Action.placeMarketOrder positionAmt cfg.closeOrderSide, Action.larkNotify],
              true, true⟩
          else if globalProfitFrac ≥ globalTpFrac then
            ⟨[Action.placeMarketOrder positionAmt cfg.closeOrderSide, Action.larkNotify],
              true, true⟩
          else ⟨[], false, false⟩
        else ⟨[], false, false⟩
      else ⟨[], false, false⟩
    | none => ⟨[], false, false⟩
  else ⟨[], false, false⟩

/-! ## Cooldown (trading_bot.py:173-201) -/

/-- Result of `_calculate_wait_time`: the wait time together with the updated
`last_close_orders` / `last_open_order_time` fields. -/
structure WaitTimeResult where
  waitTime : ℚ
  lastCloseOrders : ℕ
  lastOpenOrderTime : ℚ
deriving DecidableEq, Repr

/-- `TradingBot._calculate_wait_time` (trading_bot.py:173-201). -/
def calculateWaitTime (cfg : TradingConfig) (activeCloseOrders lastCloseOrders : ℕ)
    (lastOpenOrderTime now : ℚ) : WaitTimeResult :=
  if activeCloseOrders < lastCloseOrders then
    ⟨0, activeCloseOrders, lastOpenOrderTime⟩
  else
    if activeCloseOrders ≥ cfg.maxOrders then ⟨1, activeCloseOrders, lastOpenOrderTime⟩
    else
      let coolDownTime :=
        if (activeCloseOrders : ℚ) / cfg.maxOrders ≥ 2 / 3 then 2 * cfg.waitTime
        else if (activeCloseOrders : ℚ) / cfg.maxOrders ≥ 1 / 3 then cfg.waitTime
        else if (activeCloseOrders : ℚ) / cfg.maxOrders ≥ 1 / 6 then cfg.waitTime / 2
        else cfg.waitTime / 4
      let lastOpen :=
        if lastOpenOrderTime = 0 ∧ activeCloseOrders > 0 then now else lastOpenOrderTime
      if now - lastOpen > coolDownTime then ⟨0, activeCloseOrders, lastOpen⟩
      else ⟨1, activeCloseOrders, lastOpen⟩

/-! ## The main loop (trading_bot.py:442-677) -/

/-- One entry of `get_active_orders` as consumed by trading_bot.py:513-523. -/
structure ActiveOrder where
  orderId : String
  side : Direction
  price : ℚ
  size : ℚ
deriving DecidableEq, Repr

/-- Mutable fields of `TradingBot` read or written by the main loop. -/
structure BotState where
  shutdownRequested : Bool
  lastFilledPrice : Option ℚ
  activeCloseOrders : List CloseOrderRec
  lastCloseOrders : ℕ
  lastOpenOrderTime : ℚ
  lastLogTime : ℚ
deriving DecidableEq, Repr

/-- Oracle inputs consumed by one iteration of the main loop, one field per
exchange interaction in source order: the initial position query (line 471),
the pre-clearing SL/TP block, `_clear_existing_position`, the re-query at
line 508, the active-orders query (line 513), the post-projection SL/TP
block, the book fetched by the global check (line 583), by
`_check_price_condition` (line 414) and by the grid-step gate (line 386),
the current wall-clock time, and the fill price (if any) recorded by the
`_place_and_monitor_open_order` call. -/
structure CycleEnv where
  position0 : ℚ
  slTp1 : SlTp1Env
  clearEnv : ClearPositionEnv
  posAfterClear : ℚ
  activeOrders : List ActiveOrder
  slTp2 : SlTp2Env
  globalBbo : ℚ × ℚ
  priceBbo : ℚ × ℚ
  gridBbo : ℚ × ℚ
  now : ℚ
  openFillPrice : Option ℚ
deriving DecidableEq, Repr

/-- Intermediate state of a loop iteration just before the global SL/TP
check (i.e. after trading_bot.py:469-577). -/
structure CyclePre where
  actions : List Action
  lastFilledPrice : Option ℚ
  positionAmt : ℚ
  closeOrders : List CloseOrderRec
deriving DecidableEq, Repr

/-- The loop body up to (excluding) the global SL/TP check
(trading_bot.py:469-577): position query; if positive, the pre-clearing
SL/TP check, `_clear_existing_position`, and a position re-query; then the
close-order projection (filter by `close_order_side`) and the
post-projection SL/TP check. -/
def cyclePreGlobal (cfg : TradingConfig) (s : BotState) (env : CycleEnv) : CyclePre :=
  let pos0 := env.position0
  let closeOrders :=
    (env.activeOrders.filter (fun o => o.side = cfg.closeOrderSide)).map
      (fun o => CloseOrderRec.mk o.orderId o.price o.size)
  if pos0 > 0 then
    let r1 := slTpImmediateCheck cfg s.lastFilledPrice pos0 env.slTp1
    let clearActs := (clearExistingPosition cfg env.clearEnv).1
    let r2 := slTpCheck2 cfg r1.lastFilledPrice env.posAfterClear env.slTp2
    ⟨r1.actions ++ clearActs ++ r2.actions, r2.lastFilledPrice, r2.positionAmt, closeOrders⟩
  else
    let r2 := slTpCheck2 cfg s.lastFilledPrice pos0 env.slTp2
    ⟨r2.actions, r2.lastFilledPrice, r2.positionAmt, closeOrders⟩

/-- One full iteration of `TradingBot.run`'s `while not
self.shutdown_requested` loop (trading_bot.py:469-662).  Returns the updated
state, the emitted actions, and whether an uncaught exception escaped the
iteration (a `ValueError` from `_check_price_condition` or
`_meet_grid_step_condition` propagates to run()'s top-level handler, which
performs a graceful shutdown and re-raises). -/
def cycle (cfg : TradingConfig) (s : BotState) (env : CycleEnv) :
    BotState × List Action × Bool :=
  let p := cyclePreGlobal cfg s env
  let g := globalSlTpCheck cfg p.lastFilledPrice p.positionAmt env.globalBbo
  if g.triggered then
    ({ s with
        shutdownRequested := true
        lastFilledPrice := p.lastFilledPrice
        activeCloseOrders := p.closeOrders }, p.actions ++ g.actions, false)
  else
    -- `mismatch_detected = await self._log_status_periodically()` (line 635):
    -- the modular bot's method returns None, so `if not mismatch_detected:` is
    -- always taken below.
    let mismatchDetected := tradingBotLogStatusPeriodically env.now s.lastLogTime
      cfg.quantity p.positionAmt (p.closeOrders.map (fun o => o.size))
    match checkPriceCondition cfg env.priceBbo with
    | Except.error _ =>
        ({ s with
            shutdownRequested := true
            lastFilledPrice := p.lastFilledPrice
            activeCloseOrders := p.closeOrders }, p.actions, true)
    | Except.ok (stopTrading, pauseTrading) =>
      if stopTrading then
        ({ s with
            shutdownRequested := true
            lastFilledPrice := p.lastFilledPrice
            activeCloseOrders := p.closeOrders }, p.actions ++ [Action.larkNotify], false)
      else if pauseTrading then
        ({ s with
            lastFilledPrice := p.lastFilledPrice
            activeCloseOrders := p.closeOrders }, p.actions ++ [Action.sleepFor 5], false)
      else if mismatchDetected.getD false = false then
        let w := calculateWaitTime cfg p.closeOrders.length s.lastCloseOrders
          s.lastOpenOrderTime env.now
        if w.waitTime > 0 then
          ({ s with
              lastFilledPrice := p.lastFilledPrice
              activeCloseOrders := p.closeOrders
              lastCloseOrders := w.lastCloseOrders
              lastOpenOrderTime := w.lastOpenOrderTime },
            p.actions ++ [Action.sleepFor w.waitTime], false)
        else
          match meetGridStepCondition cfg p.closeOrders env.gridBbo with
          | Except.error _ =>
              ({ s with
                  shutdownRequested := true
                  lastFilledPrice := p.lastFilledPrice
                  activeCloseOrders := p.closeOrders
                  lastCloseOrders := w.lastCloseOrders
                  lastOpenOrderTime := w.lastOpenOrderTime }, p.actions, true)
          | Except.ok false =>
              ({ s with
                  lastFilledPrice := p.lastFilledPrice
                  activeCloseOrders := p.closeOrders
                  lastCloseOrders := w.lastCloseOrders
                  lastOpenOrderTime := w.lastOpenOrderTime },
                p.actions ++ [Action.sleepFor 1], false)
          | Except.ok true =>
              let newLastFilled :=
                match env.openFillPrice with
                | some fp => some fp
                | none => p.lastFilledPrice
              ({ s with
                  lastFilledPrice := newLastFilled
                  activeCloseOrders := p.closeOrders
                  lastCloseOrders := w.lastCloseOrders + 1
                  lastOpenOrderTime := w.lastOpenOrderTime },
                p.actions ++ [Action.placeOpenOrderAttempt], false)
      else
        ({ s with
            lastFilledPrice := p.lastFilledPrice
            activeCloseOrders := p.closeOrders }, p.actions, false)

/-- `TradingBot.run`'s main loop (trading_bot.py:469): the shutdown flag is
checked at the top of every iteration; a crashed iteration ends the loop
(the exception is re-raised at line 670).  Returns every action emitted. -/
def runLoop (cfg : TradingConfig) : BotState → List CycleEnv → List Action
  | _, [] => []
  | s, env :: envs =>
    if s.shutdownRequested then []
    else
      let r := cycle cfg s env
      if r.2.2 then r.2.1 else r.2.1 ++ runLoop cfg r.1 envs

/-! ## Spec-side close-price clamp, and concrete fixtures -/

/-- The close-order clamping rule exactly as the spec states it (§4.1):
"if sell and `p <= B`, clamp to `B + t` (or `B + t/2`); if buy and
`p >= A`, clamp to `A - t` (or `A - t/2`); otherwise use `p` unmodified" —
the half-tick variants applying in aggressive mode.  Written from the
spec's words, to be compared with the per-venue adjustment functions
embedded from the source. -/
def specAdjustClosePrice (aggressive : Bool) (tickSize bestBid bestAsk price : ℚ)
    (side : Direction) : ℚ :=
  match side with
  | Direction.sell =>
      if price ≤ bestBid then
        if aggressive then bestBid + tickSize / 2 else bestBid + tickSize
      else price
  | Direction.buy =>
      if price ≥ bestAsk then
        if aggressive then bestAsk - tickSize / 2 else bestAsk - tickSize
      else price

/-- A concrete configuration used by witnesses: direction `buy`,
quantity 1, 2% take profit, tick 0.01, grid step 0.5%, price triggers
disabled, default per-trade thresholds 0.08%/0.12%, global thresholds
5%/10%. -/
def demoConfig : TradingConfig :=
  ⟨1, 2, 1/100, Direction.buy, 5, 4, "edgex", 1/2, -1, -1, false,
    8/100, 12/100, true, 5, 10⟩

/-- A concrete bot state: running, with a remembered fill price of 100. -/
def demoState : BotState :=
  ⟨false, some 100, [], 0, 0, 0⟩

/-- Cycle oracle for the C9 counterexample: a position of 5 exists, the
pre-clearing SL/TP check sees a flat book at 100 (no trigger),
`_clear_existing_position` sees the position and its market close succeeds,
afterwards the position reads 0, there are no active orders, and the
remaining checks see healthy books. -/
def envClearNoReset : CycleEnv :=
  ⟨5, ⟨(100, 100), 5⟩, ⟨5, true⟩, 0, [], ⟨(100, 100), true, 0⟩,
    (100, 101), (100, 101), (100, 101), 100, none⟩

/-- Cycle oracle for the global-kill witness: a position of 5, neither
per-trade check triggering (flat books at 100), and the book seen by the
global check at (90, 92), i.e. a 9% loss against the entry of 100 —
beyond the 5% global stop-loss. -/
def envGlobalSl : CycleEnv :=
  ⟨5, ⟨(100, 100), 5⟩, ⟨0, true⟩, 5, [], ⟨(100, 100), true, 5⟩,
    (90, 92), (100, 101), (100, 101), 100, none⟩

/-! # Theorems -/

/-- **C5**: for every positive best bid `B`, best ask `A` and tick size `t`,
the open-order price in non-aggressive mode is `A − t` for direction buy and
`B + t` for direction sell (this is also the only formula edgex and aster
use), and in aggressive mode (backpack) `A − t/2` for buy and `B + t/2` for
sell; in particular with bid=100.00, ask=100.10, tick=0.01 and
aggressive=false, the buy open price is 100.09 and the sell open price is
100.01. -/
theorem c5_open_order_pricing :
    (∀ B A t : ℚ, 0 < B → 0 < A →
      edgexOpenOrderPrice t B A Direction.buy = A - t
      ∧ edgexOpenOrderPrice t B A Direction.sell = B + t
      ∧ asterOpenOrderPrice t B A Direction.buy = A - t
      ∧ asterOpenOrderPrice t B A Direction.sell = B + t
      ∧ backpackOpenOrderPrice false t B A Direction.buy = A - t
      ∧ backpackOpenOrderPrice false t B A Direction.sell = B + t
      ∧ backpackOpenOrderPrice true t B A Direction.buy = A - t / 2
      ∧ backpackOpenOrderPrice true t B A Direction.sell = B + t / 2)
    ∧ backpackOpenOrderPrice false (1/100) 100 (1001/10) Direction.buy = 10009/100
    ∧ backpackOpenOrderPrice false (1/100) 100 (1001/10) Direction.sell = 10001/100
    ∧ edgexOpenOrderPrice (1/100) 100 (1001/10) Direction.buy = 10009/100
    ∧ edgexOpenOrderPrice (1/100) 100 (1001/10) Direction.sell = 10001/100 := by
  refine ⟨fun B A t hB hA => ?_, ?_, ?_, ?_, ?_⟩ <;>
    norm_num [edgexOpenOrderPrice, asterOpenOrderPrice, backpackOpenOrderPrice]

/-- Witness for C5 at bid 100, ask 100.10, tick 0.01. -/
theorem c5_open_order_pricing_witness :
    (0:ℚ) < 100 ∧ (0:ℚ) < 1001/10
    ∧ edgexOpenOrderPrice (1/100) 100 (1001/10) Direction.buy = 1001/10 - 1/100 :=
  ⟨by norm_num, by norm_num,
    (c5_open_order_pricing.1 100 (1001/10) (1/100) (by norm_num) (by norm_num)).1⟩

/-- **C10**: with both `stop_price` and `pause_price` at the sentinel `-1`,
`_check_price_condition` returns `(False, False)` for every order book (it
returns before fetching); with at least one of them set, an invalid book
(bid ≤ 0, ask ≤ 0 or bid ≥ ask) raises `ValueError` instead of returning
flags. -/
theorem c10_check_price_condition :
    (∀ cfg : TradingConfig, ∀ bbo : ℚ × ℚ,
      cfg.stopPrice = -1 → cfg.pausePrice = -1 →
      checkPriceCondition cfg bbo = Except.ok (false, false))
    ∧ (∀ cfg : TradingConfig, ∀ bbo : ℚ × ℚ,
      ¬(cfg.stopPrice = -1 ∧ cfg.pausePrice = -1) →
      (bbo.1 ≤ 0 ∨ bbo.2 ≤ 0 ∨ bbo.1 ≥ bbo.2) →
      checkPriceCondition cfg bbo = Except.error ()) := by
  constructor
  · intro cfg bbo hs hp
    simp [checkPriceCondition, hs, hp]
  · intro cfg bbo hset hbad
    have hcond : ¬(cfg.pausePrice = cfg.stopPrice ∧ cfg.stopPrice = -1) := by
      intro h
      exact hset ⟨h.2, h.1.trans h.2⟩
    simp only [checkPriceCondition, if_neg hcond]
    rw [if_pos hbad]

/-- Witness for C10: sentinel config, and a config with `stop_price = 5`
against a degenerate book `(0, 0)`. -/
theorem c10_check_price_condition_witness :
    checkPriceCondition demoConfig (50, 60) = Except.ok (false, false)
    ∧ checkPriceCondition { demoConfig with stopPrice := 5 } (0, 0) = Except.error () :=
  ⟨c10_check_price_condition.1 demoConfig (50, 60) rfl rfl,
    c10_check_price_condition.2 { demoConfig with stopPrice := 5 } (0, 0)
      (by intro h; norm_num [demoConfig] at h) (by norm_num)⟩

/-- **C3**: in the EdgeX runbot, the periodic mismatch check fires —
requesting shutdown — exactly on `|position − Σ close sizes| > 2·quantity`:
with position 5, quantity 1 and close sizes summing to 2 it fires, with sum 4
it does not.  The modular bot (`trading_bot.py`), however, computes no
mismatch verdict at all: its `_log_status_periodically` returns `None` at the
same inputs, so its `run` loop (which binds `mismatch_detected` to this
result) can never observe a mismatch — the code diverges from the claimed
behaviour. -/
theorem c3_mismatch_detection_gap :
    runbotLogStatusPeriodically 100 0 1 5 [2] false = (true, true)
    ∧ runbotLogStatusPeriodically 100 0 1 5 [4] false = (false, false)
    ∧ tradingBotLogStatusPeriodically 100 0 1 5 [2] = none := by
  refine ⟨?_, ?_, rfl⟩ <;> norm_num [runbotLogStatusPeriodically]

/-- **C6 (counterexample)**: a caller-supplied close price that is not a
multiple of the tick is *not* submitted unmodified even when no clamp
applies: with tick 0.01, bid 100, ask 100.10, side buy and
`p = 100.005` (strictly between the clamp bounds), edgex submits
`round_to_tick(p) = 100.01 ≠ p`. -/
theorem c6_close_price_counterexample :
    edgexSubmittedClosePrice (1/100) 100 (1001/10) (20001/200) Direction.buy = 10001/100
    ∧ edgexAdjustClosePrice (1/100) 100 (1001/10) (20001/200) Direction.buy = 20001/200
    ∧ (20001/200 : ℚ) ≠ 10001/100 := by
  have hadj : edgexAdjustClosePrice (1/100) 100 (1001/10) (20001/200) Direction.buy
      = 20001/200 := by
    norm_num [edgexAdjustClosePrice]
  refine ⟨?_, hadj, by norm_num⟩
  rw [edgexSubmittedClosePrice, hadj, roundToTick]
  have harg : (20001:ℚ)/200 / (1/100) + 1/2 = ((10001 : ℤ) : ℚ) := by norm_num
  rw [harg, Int.floor_intCast]
  norm_num

/-- **C6 (amended)**: each venue's close-price adjustment clamps exactly as
the spec's rule states (edgex and aster always by a full tick, backpack by a
half tick in aggressive mode and a full tick otherwise); the adjusted price
is then rounded to the nearest tick (half-up) before submission, and the
caller's price `p` is submitted exactly whenever no clamp applies and `p` is
a multiple of the tick. -/
theorem c6_close_price_clamping :
    (∀ t B A p : ℚ, ∀ side : Direction,
      edgexAdjustClosePrice t B A p side = specAdjustClosePrice false t B A p side
      ∧ asterAdjustClosePrice t B A p side = specAdjustClosePrice false t B A p side)
    ∧ (∀ agg : Bool, ∀ t B A p : ℚ, ∀ side : Direction,
      backpackAdjustClosePrice agg t B A p side = specAdjustClosePrice agg t B A p side)
    ∧ (∀ t B A p : ℚ, ∀ side : Direction,
      edgexSubmittedClosePrice t B A p side
        = roundToTick t (edgexAdjustClosePrice t B A p side)
      ∧ asterSubmittedClosePrice t B A p side
        = roundToTick t (asterAdjustClosePrice t B A p side))
    ∧ (∀ (k : ℤ) (t : ℚ), 0 < t → roundToTick t (k * t) = k * t)
    ∧ (∀ t B A p : ℚ, ∀ side : Direction, ∀ k : ℤ, 0 < t → p = k * t →
      edgexAdjustClosePrice t B A p side = p →
      edgexSubmittedClosePrice t B A p side = p) := by
  have hround : ∀ (k : ℤ) (t : ℚ), 0 < t → roundToTick t (k * t) = k * t := by
    intro k t ht
    rw [roundToTick]
    have hdiv : (k : ℚ) * t / t = (k : ℚ) := by
      field_simp
    rw [hdiv]
    have hfl : ⌊(k : ℚ) + 1 / 2⌋ = k := by
      rw [Int.floor_eq_iff]
      constructor
      · norm_num
      · norm_num
    rw [hfl]
  refine ⟨?_, ?_, ?_, hround, ?_⟩
  · intro t B A p side
    cases side <;> simp [edgexAdjustClosePrice, asterAdjustClosePrice, specAdjustClosePrice]
  · intro agg t B A p side
    cases side <;> cases agg <;>
      simp [backpackAdjustClosePrice, specAdjustClosePrice]
  · intro t B A p side
    exact ⟨rfl, rfl⟩
  · intro t B A p side k ht hp hadj
    rw [edgexSubmittedClosePrice, hadj, hp, hround k t ht]

/-- Witness for C6 (amended): tick 0.01, bid 100, ask 100.10, side sell,
`p = 100.05` (a tick multiple, above the bid): submitted exactly as given. -/
theorem c6_close_price_clamping_witness :
    (0:ℚ) < 1/100 ∧ (2001:ℚ)/20 = ((10005 : ℤ) : ℚ) * (1/100)
    ∧ edgexAdjustClosePrice (1/100) 100 (1001/10) (2001/20) Direction.sell = 2001/20
    ∧ edgexSubmittedClosePrice (1/100) 100 (1001/10) (2001/20) Direction.sell = 2001/20 := by
  have h1 : (0:ℚ) < 1/100 := by norm_num
  have h2 : (2001:ℚ)/20 = ((10005 : ℤ) : ℚ) * (1/100) := by norm_num
  have h3 : edgexAdjustClosePrice (1/100) 100 (1001/10) (2001/20) Direction.sell
      = 2001/20 := by
    norm_num [edgexAdjustClosePrice]
  exact ⟨h1, h2, h3,
    c6_close_price_clamping.2.2.2.2 (1/100) 100 (1001/10) (2001/20) Direction.sell
      10005 h1 h2 h3⟩

/-- **C7 (counterexample)**: a cancel response that lacks `executedQuantity`
but whose error message does not contain "Order not found" is *not* resolved
through the inference chain: even with an order-info oracle reporting a fill
of 0.5, backpack's `cancel_order` returns `filled_size = 0`, not `0.5`. -/
theorem c7_cancel_inference_counterexample :
    (backpackCancelOrder 1 (BackpackCancelResp.errorCode ("Rate limited") none)
      (some (1/2)) (3/4)).filledSize = some 0
    ∧ ((1:ℚ)/2 ≠ 0) := by
  constructor
  · have hmsg : cancelMsgNotFound ("Rate limited") = false := by decide
    simp [backpackCancelOrder, hmsg]
  · norm_num

/-- **C7 (amended)**: only a cancel error whose message contains
"Order not found" is resolved through the inference chain — first the
order-info query (an order-info fill of `f` yields exactly `f`, e.g. 0.5),
then the `min(configured quantity, current position)` heuristic; an error
response lacking `executedQuantity` with any other message yields
`filled_size = 0`; a clean response yields its `executedQuantity` (default 0);
a missing response is the only failure, and every success carries a
filled-size estimate. -/
theorem c7_cancel_inference :
    (∀ q pos f : ℚ, ∀ msg : String, ∀ eq0 : Option ℚ,
      cancelMsgNotFound msg = true →
      backpackCancelOrder q (BackpackCancelResp.errorCode msg eq0) (some f) pos
        = ⟨true, none, none, none, none, none, none, some f⟩)
    ∧ (∀ q pos : ℚ, ∀ msg : String, ∀ eq0 : Option ℚ,
      cancelMsgNotFound msg = true →
      backpackCancelOrder q (BackpackCancelResp.errorCode msg eq0) none pos
        = ⟨true, none, none, none, none, none, none, some (min q pos)⟩)
    ∧ (∀ q pos : ℚ, ∀ msg : String, ∀ info : Option ℚ,
      cancelMsgNotFound msg = false →
      backpackCancelOrder q (BackpackCancelResp.errorCode msg none) info pos
        = ⟨true, none, none, none, none, none, none, some 0⟩)
    ∧ (∀ q pos : ℚ, ∀ info eq0 : Option ℚ,
      backpackCancelOrder q (BackpackCancelResp.clean eq0) info pos
        = ⟨true, none, none, none, none, none, none, some (eq0.getD 0)⟩)
    ∧ (∀ q pos : ℚ, ∀ info : Option ℚ, ∀ resp : BackpackCancelResp,
      (backpackCancelOrder q resp info pos).success = true →
      ∃ f : ℚ, (backpackCancelOrder q resp info pos).filledSize = some f) := by
  refine ⟨?_, ?_, ?_, ?_, ?_⟩
  · intro q pos f msg eq0 h
    simp [backpackCancelOrder, h]
  · intro q pos msg eq0 h
    simp [backpackCancelOrder, h]
  · intro q pos msg info h
    simp [backpackCancelOrder, h]
  · intro q pos info eq0
    simp [backpackCancelOrder]
  · intro q pos info resp h
    cases resp with
    | missing => simp [backpackCancelOrder, OrderResult.failure] at h
    | errorCode msg eq0 =>
      by_cases hm : cancelMsgNotFound msg = true
      · cases info with
        | some f => exact ⟨f, by simp [backpackCancelOrder, hm]⟩
        | none => exact ⟨min q pos, by simp [backpackCancelOrder, hm]⟩
      · cases eq0 with
        | some e => exact ⟨e, by simp [backpackCancelOrder, hm]⟩
        | none => exact ⟨0, by simp [backpackCancelOrder, hm]⟩
    | clean eq0 => exact ⟨eq0.getD 0, by simp [backpackCancelOrder]⟩

/-- Witness for C7 (amended): an "Order not found" race with an order-info
fill of 0.5 resolves to exactly 0.5. -/
theorem c7_cancel_inference_witness :
    cancelMsgNotFound ("Order not found") = true
    ∧ backpackCancelOrder 1 (BackpackCancelResp.errorCode ("Order not found") none)
        (some (1/2)) (3/4)
      = ⟨true, none, none, none, none, none, none, some (1/2)⟩ :=
  ⟨by decide,
    c7_cancel_inference.1 1 (3/4) (1/2) ("Order not found") none (by decide)⟩

/-- **C1**: in the cancel branch of `_handle_order_result`, every close order
that is issued is sized exactly to the filled amount discovered at cancel
time (from the cancel result for backpack, else from the cancel websocket
event or the order-info query), and that amount is positive; in the normal
(non-`aster_boost`) mode a close order is in fact issued for every positive
discovered amount, priced from the open fill price and take-profit offset;
the result is entirely independent of the originally requested order
quantity (`config.quantity`), so a close order is never sized to it unless
the fill happens to equal it; a non-positive discovered amount issues no
close order. -/
theorem c1_close_sized_to_filled :
    (∀ cfg : TradingConfig, ∀ filledPrice : ℚ, ∀ env : CancelBranchEnv,
      ∀ req : CloseOrderReq,
      handleOrderResultCancelBranch cfg filledPrice env = Except.ok (some req) →
      req.size = orderFilledAmountAfterCancel cfg.exchange env
      ∧ 0 < orderFilledAmountAfterCancel cfg.exchange env
      ∧ req.side = cfg.closeOrderSide)
    ∧ (∀ cfg : TradingConfig, ∀ filledPrice : ℚ, ∀ env : CancelBranchEnv,
      cfg.asterBoost = false →
      0 < orderFilledAmountAfterCancel cfg.exchange env →
      handleOrderResultCancelBranch cfg filledPrice env
        = Except.ok (some ⟨orderFilledAmountAfterCancel cfg.exchange env,
            some (if cfg.closeOrderSide = Direction.sell then
                filledPrice * (1 + cfg.takeProfit / 100)
              else filledPrice * (1 - cfg.takeProfit / 100)),
            cfg.closeOrderSide⟩))
    ∧ (∀ cfg : TradingConfig, ∀ filledPrice : ℚ, ∀ env : CancelBranchEnv, ∀ q : ℚ,
      handleOrderResultCancelBranch { cfg with quantity := q } filledPrice env
        = handleOrderResultCancelBranch cfg filledPrice env)
    ∧ (∀ cfg : TradingConfig, ∀ filledPrice : ℚ, ∀ env : CancelBranchEnv,
      orderFilledAmountAfterCancel cfg.exchange env ≤ 0 →
      handleOrderResultCancelBranch cfg filledPrice env = Except.ok none) := by
  refine ⟨?_, ?_, ?_, ?_⟩
  · intro cfg filledPrice env req h
    by_cases hamt : 0 < orderFilledAmountAfterCancel cfg.exchange env
    · rw [handleOrderResultCancelBranch, if_pos hamt] at h
      by_cases hb : cfg.asterBoost
      · rw [if_pos hb] at h
        exact absurd h (by simp)
      · rw [if_neg hb] at h
        obtain rfl : (⟨orderFilledAmountAfterCancel cfg.exchange env, _, _⟩ : CloseOrderReq)
            = req := by
          simpa using h
        exact ⟨rfl, hamt, rfl⟩
    · rw [handleOrderResultCancelBranch, if_neg hamt] at h
      exact absurd h (by simp)
  · intro cfg filledPrice env hb hamt
    rw [handleOrderResultCancelBranch, if_pos hamt, hb]
    simp
  · intro cfg filledPrice env q
    rfl
  · intro cfg filledPrice env hamt
    rw [handleOrderResultCancelBranch, if_neg (not_lt.mpr hamt)]

/-- Witness for C1: edgex, two partial fills 0.4 + 0.3 reported as 0.7 by the
cancel event, original quantity 1: the issued close order has size 0.7, not
1. -/
theorem c1_close_sized_to_filled_witness :
    handleOrderResultCancelBranch demoConfig 100 ⟨0, true, 7/10, 0⟩
      = Except.ok (some ⟨7/10, some (100 * (1 + 2/100)), Direction.sell⟩)
    ∧ (7:ℚ)/10 ≠ demoConfig.quantity := by
  have hamt : orderFilledAmountAfterCancel demoConfig.exchange ⟨0, true, 7/10, 0⟩
      = 7/10 := by
    simp [orderFilledAmountAfterCancel, demoConfig]
  constructor
  · have h := c1_close_sized_to_filled.2.1 demoConfig 100 ⟨0, true, 7/10, 0⟩
      (by rfl) (by rw [hamt]; norm_num)
    rw [h, hamt]
    simp [demoConfig, TradingConfig.closeOrderSide]
  · norm_num [demoConfig]

/-- The first-minimal picker returns an element of the list. -/
theorem minByPrice_mem : ∀ (rest : List CloseOrderRec) (best : CloseOrderRec),
    minByPrice best rest ∈ best :: rest := by
  intro rest
  induction rest with
  | nil => intro best; simp [minByPrice]
  | cons o rest ih =>
    intro best
    rw [minByPrice]
    by_cases hc : o.price < best.price
    · rw [if_pos hc]
      rcases List.mem_cons.mp (ih o) with h | h
      · simp [h]
      · simp [List.mem_cons_of_mem, h]
    · rw [if_neg hc]
      rcases List.mem_cons.mp (ih best) with h | h
      · simp [h]
      · simp [List.mem_cons_of_mem, h]

/-- The first-minimal picker's price is a lower bound for the list. -/
theorem minByPrice_le : ∀ (rest : List CloseOrderRec) (best : CloseOrderRec),
    ∀ x ∈ best :: rest, (minByPrice best rest).price ≤ x.price := by
  intro rest
  induction rest with
  | nil =>
    intro best x hx
    rcases List.mem_cons.mp hx with rfl | h
    · simp [minByPrice]
    · simp at h
  | cons o rest ih =>
    intro best x hx
    rw [minByPrice]
    have hble : (if o.price < best.price then o else best).price ≤ best.price ∧
        (if o.price < best.price then o else best).price ≤ o.price := by
      by_cases hc : o.price < best.price
      · rw [if_pos hc]
        exact ⟨le_of_lt hc, le_refl _⟩
      · rw [if_neg hc]
        exact ⟨le_refl _, le_of_not_lt hc⟩
    have hself := ih (if o.price < best.price then o else best)
      (minByPrice (if o.price < best.price then o else best) rest)
      (minByPrice_mem rest _)
    rcases List.mem_cons.mp hx with rfl | hx2
    · exact le_trans (ih _ _ (List.mem_cons_self _ _)) hble.1
    · rcases List.mem_cons.mp hx2 with rfl | hx3
      · exact le_trans (ih _ _ (List.mem_cons_self _ _)) hble.2
      · exact ih _ x (List.mem_cons_of_mem _ hx3)

/-- The first-maximal picker returns an element of the list. -/
theorem maxByPrice_mem : ∀ (rest : List CloseOrderRec) (best : CloseOrderRec),
    maxByPrice best rest ∈ best :: rest := by
  intro rest
  induction rest with
  | nil => intro best; simp [maxByPrice]
  | cons o rest ih =>
    intro best
    rw [maxByPrice]
    by_cases hc : o.price > best.price
    · rw [if_pos hc]
      rcases List.mem_cons.mp (ih o) with h | h
      · simp [h]
      · simp [List.mem_cons_of_mem, h]
    · rw [if_neg hc]
      rcases List.mem_cons.mp (ih best) with h | h
      · simp [h]
      · simp [List.mem_cons_of_mem, h]

/-- The first-maximal picker's price is an upper bound for the list. -/
theorem maxByPrice_ge : ∀ (rest : List CloseOrderRec) (best : CloseOrderRec),
    ∀ x ∈ best :: rest, x.price ≤ (maxByPrice best rest).price := by
  intro rest
  induction rest with
  | nil =>
    intro best x hx
    rcases List.mem_cons.mp hx with rfl | h
    · simp [maxByPrice]
    · simp at h
  | cons o rest ih =>
    intro best x hx
    rw [maxByPrice]
    have hble : best.price ≤ (if o.price > best.price then o else best).price ∧
        o.price ≤ (if o.price > best.price then o else best).price := by
      by_cases hc : o.price > best.price
      · rw [if_pos hc]
        exact ⟨le_of_lt hc, le_refl _⟩
      · rw [if_neg hc]
        exact ⟨le_refl _, le_of_not_lt hc⟩
    rcases List.mem_cons.mp hx with rfl | hx2
    · exact le_trans hble.1 (ih _ _ (List.mem_cons_self _ _))
    · rcases List.mem_cons.mp hx2 with rfl | hx3
      · exact le_trans hble.2 (ih _ _ (List.mem_cons_self _ _))
      · exact ih _ x (List.mem_cons_of_mem _ hx3)

/-- **C8**: with close orders present and a valid book, the grid-step gate
permits a new open order exactly when the relevant price ratio exceeds
`1 + grid_step/100`: for direction buy it compares the nearest (minimal-price)
close order against the hypothetical new close price `ask·(1 + tp/100)`, for
sell the hypothetical `bid·(1 − tp/100)` against the nearest (maximal-price)
close order; the picked order is genuinely the nearest one; and for a fixed
grid step, any book whose ratio is at most that of a rejected book is still
rejected while any ratio above the bound passes. -/
theorem c8_grid_step_gate :
    (∀ cfg : TradingConfig, ∀ o : CloseOrderRec, ∀ rest : List CloseOrderRec,
      ∀ bbo : ℚ × ℚ,
      ¬(bbo.1 ≤ 0 ∨ bbo.2 ≤ 0 ∨ bbo.1 ≥ bbo.2) → cfg.direction = Direction.buy →
      (meetGridStepCondition cfg (o :: rest) bbo = Except.ok true ↔
        (minByPrice o rest).price / (bbo.2 * (1 + cfg.takeProfit / 100))
          > 1 + cfg.gridStep / 100))
    ∧ (∀ cfg : TradingConfig, ∀ o : CloseOrderRec, ∀ rest : List CloseOrderRec,
      ∀ bbo : ℚ × ℚ,
      ¬(bbo.1 ≤ 0 ∨ bbo.2 ≤ 0 ∨ bbo.1 ≥ bbo.2) → cfg.direction = Direction.sell →
      (meetGridStepCondition cfg (o :: rest) bbo = Except.ok true ↔
        (bbo.1 * (1 - cfg.takeProfit / 100)) / (maxByPrice o rest).price
          > 1 + cfg.gridStep / 100))
    ∧ (∀ o : CloseOrderRec, ∀ rest : List CloseOrderRec,
      minByPrice o rest ∈ o :: rest
      ∧ (∀ x ∈ o :: rest, (minByPrice o rest).price ≤ x.price)
      ∧ maxByPrice o rest ∈ o :: rest
      ∧ (∀ x ∈ o :: rest, x.price ≤ (maxByPrice o rest).price))
    ∧ (∀ cfg : TradingConfig, ∀ o : CloseOrderRec, ∀ rest : List CloseOrderRec,
      ∀ bbo₁ bbo₂ : ℚ × ℚ,
      ¬(bbo₁.1 ≤ 0 ∨ bbo₁.2 ≤ 0 ∨ bbo₁.1 ≥ bbo₁.2) →
      ¬(bbo₂.1 ≤ 0 ∨ bbo₂.2 ≤ 0 ∨ bbo₂.1 ≥ bbo₂.2) →
      cfg.direction = Direction.buy →
      meetGridStepCondition cfg (o :: rest) bbo₁ = Except.ok false →
      (minByPrice o rest).price / (bbo₂.2 * (1 + cfg.takeProfit / 100))
        ≤ (minByPrice o rest).price / (bbo₁.2 * (1 + cfg.takeProfit / 100)) →
      meetGridStepCondition cfg (o :: rest) bbo₂ = Except.ok false) := by
  have hbuy : ∀ cfg : TradingConfig, ∀ o : CloseOrderRec, ∀ rest : List CloseOrderRec,
      ∀ bbo : ℚ × ℚ,
      ¬(bbo.1 ≤ 0 ∨ bbo.2 ≤ 0 ∨ bbo.1 ≥ bbo.2) → cfg.direction = Direction.buy →
      (meetGridStepCondition cfg (o :: rest) bbo = Except.ok true ↔
        (minByPrice o rest).price / (bbo.2 * (1 + cfg.takeProfit / 100))
          > 1 + cfg.gridStep / 100) := by
    intro cfg o rest bbo hvalid hdir
    rw [meetGridStepCondition, if_neg hvalid, hdir]
    simp [nextCloseOrder]
  refine ⟨hbuy, ?_, ?_, ?_⟩
  · intro cfg o rest bbo hvalid hdir
    rw [meetGridStepCondition, if_neg hvalid, hdir]
    simp [nextCloseOrder]
  · intro o rest
    exact ⟨minByPrice_mem rest o, minByPrice_le rest o,
      maxByPrice_mem rest o, maxByPrice_ge rest o⟩
  · intro cfg o rest bbo₁ bbo₂ hv₁ hv₂ hdir hrej hle
    have h₁ := hbuy cfg o rest bbo₁ hv₁ hdir
    have h₂ := hbuy cfg o rest bbo₂ hv₂ hdir
    rw [meetGridStepCondition, if_neg hv₂, hdir]
    simp only [nextCloseOrder]
    have hnot₁ : ¬((minByPrice o rest).price / (bbo₁.2 * (1 + cfg.takeProfit / 100))
        > 1 + cfg.gridStep / 100) := by
      intro hgt
      rw [(h₁.mpr hgt) ] at hrej
      exact absurd (Except.ok.inj hrej) (by simp)
    have hnot₂ : ¬((minByPrice o rest).price / (bbo₂.2 * (1 + cfg.takeProfit / 100))
        > 1 + cfg.gridStep / 100) := fun hgt => hnot₁ (lt_of_lt_of_le hgt hle)
    simp [hnot₂]

/-- Witness for C8: one close order at 110, take-profit 2%, grid step 0.5%:
at book (100, 101) the hypothetical new close is `101·1.02 = 103.02` and
`110/103.02 > 1.005`, so the gate passes; at (107, 108) the ratio
`110/110.16 ≤ 1.005` fails; and by monotonicity the smaller ratio at
(107, 109) still fails. -/
theorem c8_grid_step_gate_witness :
    meetGridStepCondition demoConfig [⟨"c1", 110, 1⟩] (100, 101) = Except.ok true
    ∧ meetGridStepCondition demoConfig [⟨"c1", 110, 1⟩] (107, 108) = Except.ok false
    ∧ meetGridStepCondition demoConfig [⟨"c1", 110, 1⟩] (107, 109) = Except.ok false := by
  have hfail : meetGridStepCondition demoConfig [⟨"c1", 110, 1⟩] (107, 108)
      = Except.ok false := by
    rw [meetGridStepCondition, if_neg (by norm_num)]
    norm_num [demoConfig, nextCloseOrder, minByPrice]
  refine ⟨?_, hfail, ?_⟩
  · exact (c8_grid_step_gate.1 demoConfig ⟨"c1", 110, 1⟩ [] (100, 101)
      (by norm_num) rfl).mpr (by norm_num [minByPrice, demoConfig])
  · exact c8_grid_step_gate.2.2.2 demoConfig ⟨"c1", 110, 1⟩ [] (107, 108) (107, 109)
      (by norm_num) (by norm_num) rfl hfail (by norm_num [minByPrice, demoConfig])

/-- EdgeX placement with post-only rejections on every attempt below 15:
from any starting `retry_count = r` with `r + k = 14`, the loop ends with
the at-bound rejection result. -/
theorem edgexAllRejectedFrom (t q : ℚ) (d : Direction) (attempts : ℕ → EdgexAttempt)
    (h : ∀ i, i < 15 → ∃ bbo : ℚ × ℚ, ∃ oid : String, 0 < bbo.1 ∧ 0 < bbo.2
      ∧ attempts i = EdgexAttempt.observed bbo (EdgexCreateResp.withOrderId oid)
          (some "CANCELED")) :
    ∀ k r, r + k = 14 →
    edgexPlaceOpenOrderFrom t q d attempts r
      = OrderResult.failure ("Order rejected after 15 attempts") := by
  intro k
  induction k with
  | zero =>
    intro r hr
    obtain ⟨bbo, oid, h1, h2, ha⟩ := h r (by omega)
    unfold edgexPlaceOpenOrderFrom
    rw [dif_pos (by omega : r < 15), ha]
    have hr14 : r = 14 := by omega
    subst hr14
    simp [h1.not_le, h2.not_le]
  | succ k ih =>
    intro r hr
    obtain ⟨bbo, oid, h1, h2, ha⟩ := h r (by omega)
    unfold edgexPlaceOpenOrderFrom
    rw [dif_pos (by omega : r < 15), ha]
    have h14 : r < 15 - 1 := by omega
    simp [h1.not_le, h2.not_le, h14]
    exact ih (r + 1) (by omega)

/-- Backpack placement with a venue error code (not the insufficient-margin
message) on every attempt: from `retry_count = r` with `r + k = 15`, the
loop exhausts and returns `Max retries exceeded`. -/
theorem backpackAllRejectedFrom (agg : Bool) (t q : ℚ) (d : Direction)
    (attempts : ℕ → BackpackOpenAttempt)
    (h : ∀ i, i < 15 → ∃ bbo : ℚ × ℚ, ∃ msg : String, ∃ mc : OrderResult,
      ∃ w : BackpackWaitOutcome, 0 < bbo.1 ∧ 0 < bbo.2
      ∧ containsSub ("Insufficient margin to open a new order") msg = false
      ∧ attempts i = ⟨bbo, BackpackExecResp.errorCode msg, mc, w⟩) :
    ∀ k r, r + k = 15 →
    backpackPlaceOpenOrderFrom agg t q d attempts r
      = OrderResult.failure ("Max retries exceeded") := by
  intro k
  induction k with
  | zero =>
    intro r hr
    unfold backpackPlaceOpenOrderFrom
    rw [dif_neg (by omega)]
  | succ k ih =>
    intro r hr
    obtain ⟨bbo, msg, mc, w, h1, h2, hmargin, ha⟩ := h r (by omega)
    unfold backpackPlaceOpenOrderFrom
    rw [dif_pos (by omega : r < 15), ha]
    simp [h1.not_le, h2.not_le, hmargin]
    exact ih (r + 1) (by omega)

/-- The aster placement loop just `continue`s past every `EXPIRED` attempt:
it consumes all `n` provided attempts, for every `n` and starting counter,
without returning. -/
theorem asterExpiredLoop (t q : ℚ) (d : Direction) :
    ∀ (n a : ℕ),
    asterPlaceOpenOrderFrom t q d a (List.replicate n asterExpiredAttempt) = none := by
  intro n
  induction n with
  | zero => intro a; rfl
  | succ n ih =>
    intro a
    rw [List.replicate_succ, asterPlaceOpenOrderFrom]
    simp only [asterExpiredAttempt]
    norm_num
    exact ih (a + 1)

/-- **C2 (counterexample)**: `AsterClient.place_open_order` is not bounded by
15 attempts: offered 20 consecutive post-only `EXPIRED` rejections it
consumes all 20 and is still looping (no `OrderResult` at all, in particular
not a 'Max retries exceeded' failure after 15). -/
theorem c2_retry_counterexample :
    asterPlaceOpenOrder 1 1 Direction.buy (List.replicate 20 asterExpiredAttempt) = none :=
  asterExpiredLoop 1 1 Direction.buy 20 0

/-- **C2 (amended)**: the retry bound of 15 holds for edgex and backpack but
not for every exchange client: edgex's `place_open_order`, when every
attempt is rejected (order `CANCELED` after placement), returns after
exactly 15 attempts with `success=False` and the message
"Order rejected after 15 attempts" (not "Max retries exceeded", whose
post-loop return is unreachable there); backpack's loop, when every attempt
yields a venue error code (other than the insufficient-margin message),
exhausts its 15 iterations and returns `success=False` with
"Max retries exceeded"; aster's `while True` loop retries `EXPIRED`
rejections indefinitely — for every `n`, `n` consecutive rejections leave it
still looping. -/
theorem c2_retry_bounds :
    (∀ t q : ℚ, ∀ d : Direction, ∀ attempts : ℕ → EdgexAttempt,
      (∀ i, i < 15 → ∃ bbo : ℚ × ℚ, ∃ oid : String, 0 < bbo.1 ∧ 0 < bbo.2
        ∧ attempts i = EdgexAttempt.observed bbo (EdgexCreateResp.withOrderId oid)
            (some "CANCELED")) →
      edgexPlaceOpenOrder t q d attempts
        = OrderResult.failure ("Order rejected after 15 attempts"))
    ∧ (∀ agg : Bool, ∀ t q : ℚ, ∀ d : Direction, ∀ attempts : ℕ → BackpackOpenAttempt,
      (∀ i, i < 15 → ∃ bbo : ℚ × ℚ, ∃ msg : String, ∃ mc : OrderResult,
        ∃ w : BackpackWaitOutcome, 0 < bbo.1 ∧ 0 < bbo.2
        ∧ containsSub ("Insufficient margin to open a new order") msg = false
        ∧ attempts i = ⟨bbo, BackpackExecResp.errorCode msg, mc, w⟩) →
      backpackPlaceOpenOrder agg t q d attempts
        = OrderResult.failure ("Max retries exceeded"))
    ∧ (∀ t q : ℚ, ∀ d : Direction, ∀ n : ℕ,
      asterPlaceOpenOrder t q d (List.replicate n asterExpiredAttempt) = none) := by
  refine ⟨?_, ?_, ?_⟩
  · intro t q d attempts h
    exact edgexAllRejectedFrom t q d attempts h 14 0 (by omega)
  · intro agg t q d attempts h
    exact backpackAllRejectedFrom agg t q d attempts h 15 0 (by omega)
  · intro t q d n
    exact asterExpiredLoop t q d n 0

/-- Witness for C2 (amended) at concrete rejection streams. -/
theorem c2_retry_bounds_witness :
    edgexPlaceOpenOrder (1/100) 1 Direction.buy
      (fun _ => EdgexAttempt.observed (1, 2) (EdgexCreateResp.withOrderId ("o"))
        (some "CANCELED"))
      = OrderResult.failure ("Order rejected after 15 attempts")
    ∧ backpackPlaceOpenOrder true (1/100) 1 Direction.buy
      (fun _ => ⟨(1, 2), BackpackExecResp.errorCode ("Order would cross"),
        OrderResult.failure ("x"), BackpackWaitOutcome.filledInTime⟩)
      = OrderResult.failure ("Max retries exceeded")
    ∧ asterPlaceOpenOrder (1/100) 1 Direction.buy
        (List.replicate 16 asterExpiredAttempt) = none := by
  refine ⟨?_, ?_, c2_retry_bounds.2.2 (1/100) 1 Direction.buy 16⟩
  · exact c2_retry_bounds.1 (1/100) 1 Direction.buy _
      (fun i hi => ⟨(1, 2), "o", by norm_num, by norm_num, rfl⟩)
  · exact c2_retry_bounds.2.1 true (1/100) 1 Direction.buy _
      (fun i hi => ⟨(1, 2), "Order would cross", OrderResult.failure ("x"),
        BackpackWaitOutcome.filledInTime, by norm_num, by norm_num, by decide, rfl⟩)

/-- Once the shutdown flag is set, the main loop runs no further iteration
and emits no further action. -/
theorem runLoop_shutdown (cfg : TradingConfig) (s : BotState) (es : List CycleEnv)
    (h : s.shutdownRequested = true) : runLoop cfg s es = [] := by
  cases es with
  | nil => rfl
  | cons e es => simp [runLoop, h]

/-- A triggered global SL/TP check market-closes the position, notifies, and
requests shutdown. -/
theorem globalSlTpCheck_triggered (cfg : TradingConfig) (lfp : Option ℚ)
    (pos : ℚ) (bbo : ℚ × ℚ)
    (h : (globalSlTpCheck cfg lfp pos bbo).triggered = true) :
    globalSlTpCheck cfg lfp pos bbo
      = ⟨[Action.placeMarketOrder pos cfg.closeOrderSide, Action.larkNotify],
          true, true⟩ := by
  unfold globalSlTpCheck at h ⊢
  dsimp only at h ⊢
  repeat' split at h
  all_goals simp_all

/-- The pre-clearing SL/TP check never emits an open-order attempt. -/
theorem slTpImmediateCheck_no_open (cfg : TradingConfig) (lfp : Option ℚ)
    (pos : ℚ) (env : SlTp1Env) :
    Action.placeOpenOrderAttempt ∉ (slTpImmediateCheck cfg lfp pos env).actions := by
  unfold slTpImmediateCheck
  dsimp only
  repeat' split
  all_goals simp

/-- `_clear_existing_position` never emits an open-order attempt. -/
theorem clearExistingPosition_no_open (cfg : TradingConfig) (env : ClearPositionEnv) :
    Action.placeOpenOrderAttempt ∉ (clearExistingPosition cfg env).1 := by
  rw [clearExistingPosition]
  split
  · split <;> simp
  · simp

/-- The post-projection SL/TP check never emits an open-order attempt. -/
theorem slTpCheck2_no_open (cfg : TradingConfig) (lfp : Option ℚ)
    (pos : ℚ) (env : SlTp2Env) :
    Action.placeOpenOrderAttempt ∉ (slTpCheck2 cfg lfp pos env).actions := by
  unfold slTpCheck2
  dsimp only
  repeat' split
  all_goals simp

/-- No open-order attempt is emitted before the global SL/TP check. -/
theorem cyclePreGlobal_no_open (cfg : TradingConfig) (s : BotState) (env : CycleEnv) :
    Action.placeOpenOrderAttempt ∉ (cyclePreGlobal cfg s env).actions := by
  rw [cyclePreGlobal]
  split
  · intro hmem
    rcases List.mem_append.mp hmem with hmem2 | h3
    · rcases List.mem_append.mp hmem2 with h1 | h2
      · exact slTpImmediateCheck_no_open cfg s.lastFilledPrice env.position0 env.slTp1 h1
      · exact clearExistingPosition_no_open cfg env.clearEnv h2
    · exact slTpCheck2_no_open cfg _ env.posAfterClear env.slTp2 h3
  · intro hmem
    exact slTpCheck2_no_open cfg s.lastFilledPrice env.position0 env.slTp2 hmem

/-- **C4**: when the global stop-loss or take-profit check triggers in a
cycle, that cycle issues a market close of the position, sends the external
notification, sets the shutdown flag, and (having `continue`d) places no
open order then or in any subsequent iteration; in general, once the
shutdown flag is set the main loop emits nothing further at all. -/
theorem c4_global_kill :
    (∀ cfg : TradingConfig, ∀ s : BotState, ∀ env : CycleEnv, ∀ es : List CycleEnv,
      (globalSlTpCheck cfg (cyclePreGlobal cfg s env).lastFilledPrice
        (cyclePreGlobal cfg s env).positionAmt env.globalBbo).triggered = true →
      (cycle cfg s env).1.shutdownRequested = true
      ∧ Action.placeMarketOrder (cyclePreGlobal cfg s env).positionAmt
          cfg.closeOrderSide ∈ (cycle cfg s env).2.1
      ∧ Action.larkNotify ∈ (cycle cfg s env).2.1
      ∧ Action.placeOpenOrderAttempt ∉ runLoop cfg s (env :: es))
    ∧ (∀ cfg : TradingConfig, ∀ s : BotState, ∀ es : List CycleEnv,
      s.shutdownRequested = true → runLoop cfg s es = []) := by
  constructor
  · intro cfg s env es htrig
    have hg := globalSlTpCheck_triggered cfg (cyclePreGlobal cfg s env).lastFilledPrice
      (cyclePreGlobal cfg s env).positionAmt env.globalBbo htrig
    have hcy : cycle cfg s env
        = ({ s with
              shutdownRequested := true
              lastFilledPrice := (cyclePreGlobal cfg s env).lastFilledPrice
              activeCloseOrders := (cyclePreGlobal cfg s env).closeOrders },
            (cyclePreGlobal cfg s env).actions
              ++ [Action.placeMarketOrder (cyclePreGlobal cfg s env).positionAmt
                    cfg.closeOrderSide, Action.larkNotify], false) := by
      rw [cycle, hg]
      simp
    refine ⟨by rw [hcy], by rw [hcy]; simp, by rw [hcy]; simp, ?_⟩
    by_cases hs : s.shutdownRequested = true
    · rw [runLoop_shutdown cfg s (env :: es) hs]
      simp
    · rw [runLoop]
      rw [if_neg hs, hcy]
      have hrest : runLoop cfg ({ s with
          shutdownRequested := true
          lastFilledPrice := (cyclePreGlobal cfg s env).lastFilledPrice
          activeCloseOrders := (cyclePreGlobal cfg s env).closeOrders }) es = [] :=
        runLoop_shutdown cfg _ es rfl
      simp only [hrest]
      intro hmem
      rcases List.mem_append.mp hmem with hmem1 | hmem2
      · rcases List.mem_append.mp hmem1 with hpre | hglob
        · exact cyclePreGlobal_no_open cfg s env hpre
        · simp at hglob
      · simp at hmem2
  · intro cfg s es h
    exact runLoop_shutdown cfg s es h

/-- Witness for C4: with an entry at 100, a position of 5, per-trade checks
quiet, and the global check seeing the book at (90, 92) — a 9% loss against
the 5% global stop — the cycle shuts the bot down and the loop goes quiet. -/
theorem c4_global_kill_witness :
    (globalSlTpCheck demoConfig (cyclePreGlobal demoConfig demoState envGlobalSl).lastFilledPrice
      (cyclePreGlobal demoConfig demoState envGlobalSl).positionAmt
      envGlobalSl.globalBbo).triggered = true
    ∧ (cycle demoConfig demoState envGlobalSl).1.shutdownRequested = true
    ∧ Action.larkNotify ∈ (cycle demoConfig demoState envGlobalSl).2.1
    ∧ Action.placeOpenOrderAttempt ∉ runLoop demoConfig demoState [envGlobalSl] := by
  have hpre : cyclePreGlobal demoConfig demoState envGlobalSl
      = ⟨[], some 100, 5, []⟩ := by
    rw [cyclePreGlobal]
    norm_num [demoState, envGlobalSl, slTpImmediateCheck, clearExistingPosition,
      slTpCheck2, demoConfig]
  have htrig : (globalSlTpCheck demoConfig
      (cyclePreGlobal demoConfig demoState envGlobalSl).lastFilledPrice
      (cyclePreGlobal demoConfig demoState envGlobalSl).positionAmt
      envGlobalSl.globalBbo).triggered = true := by
    rw [hpre]
    norm_num [globalSlTpCheck, envGlobalSl, demoConfig]
  have h := c4_global_kill.1 demoConfig demoState envGlobalSl [] htrig
  exact ⟨htrig, h.1, h.2.2.1, h.2.2.2⟩

/-- **C9 (counterexample)**: a cycle in which `_clear_existing_position`
issues a market close (position 5, close succeeds) ends with
`last_filled_price` still set to the stale entry 100 — the clearing step
never clears it, so the next SL/TP evaluation still sees the stale entry
price, contradicting the claim that every market close clears it. -/
theorem c9_stale_price_counterexample :
    Action.placeMarketOrder 5 Direction.sell
      ∈ (cycle demoConfig demoState envClearNoReset).2.1
    ∧ (cycle demoConfig demoState envClearNoReset).1.lastFilledPrice = some 100 := by
  have hpre : cyclePreGlobal demoConfig demoState envClearNoReset
      = ⟨[Action.placeMarketOrder 5 Direction.sell, Action.sleepFor 2], some 100, 0, []⟩ := by
    rw [cyclePreGlobal]
    norm_num [demoState, envClearNoReset, slTpImmediateCheck, clearExistingPosition,
      slTpCheck2, demoConfig, TradingConfig.closeOrderSide]
  rw [cycle, hpre]
  norm_num [globalSlTpCheck, checkPriceCondition, tradingBotLogStatusPeriodically,
    calculateWaitTime, meetGridStepCondition, demoConfig, demoState, envClearNoReset]

/-- **C9 (amended)**: only the two per-trade SL/TP checks clear the
remembered fill price after issuing a market close — the pre-clearing check
unconditionally, the post-projection check exactly when the close succeeds;
the `_clear_existing_position` step does not touch it (see the
counterexample), and a triggered global SL/TP check also leaves it unchanged
but sets the shutdown flag, so the loop performs no further SL/TP
evaluation. -/
theorem c9_market_close_price_clearing :
    (∀ cfg : TradingConfig, ∀ lfp : Option ℚ, ∀ pos : ℚ, ∀ env : SlTp1Env,
      (∃ q : ℚ, ∃ d : Direction,
        Action.placeMarketOrder q d ∈ (slTpImmediateCheck cfg lfp pos env).actions) →
      (slTpImmediateCheck cfg lfp pos env).lastFilledPrice = none)
    ∧ (∀ cfg : TradingConfig, ∀ lfp : Option ℚ, ∀ pos : ℚ, ∀ env : SlTp2Env,
      env.closeSuccess = true →
      (∃ q : ℚ, ∃ d : Direction,
        Action.placeMarketOrder q d ∈ (slTpCheck2 cfg lfp pos env).actions) →
      (slTpCheck2 cfg lfp pos env).lastFilledPrice = none)
    ∧ (∀ cfg : TradingConfig, ∀ s : BotState, ∀ env : CycleEnv,
      (globalSlTpCheck cfg (cyclePreGlobal cfg s env).lastFilledPrice
        (cyclePreGlobal cfg s env).positionAmt env.globalBbo).triggered = true →
      (cycle cfg s env).1.lastFilledPrice = (cyclePreGlobal cfg s env).lastFilledPrice
      ∧ (cycle cfg s env).1.shutdownRequested = true) := by
  refine ⟨?_, ?_, ?_⟩
  · intro cfg lfp pos env hex
    obtain ⟨q, d, hmem⟩ := hex
    unfold slTpImmediateCheck at hmem ⊢
    dsimp only at hmem ⊢
    repeat' split at hmem
    all_goals simp_all
  · intro cfg lfp pos env hsucc hex
    obtain ⟨q, d, hmem⟩ := hex
    unfold slTpCheck2 at hmem ⊢
    dsimp only at hmem ⊢
    repeat' split at hmem
    all_goals simp_all
  · intro cfg s env htrig
    have hg := globalSlTpCheck_triggered cfg (cyclePreGlobal cfg s env).lastFilledPrice
      (cyclePreGlobal cfg s env).positionAmt env.globalBbo htrig
    constructor
    · rw [cycle, hg]
      simp
    · rw [cycle, hg]
      simp

/-- Witness for C9 (amended): the pre-clearing check at entry 100 against a
book at 90 (a 10% loss) clears the price; the post-projection check with a
successful close clears it; a triggered global check leaves it at the entry
while shutting down. -/
theorem c9_market_close_price_clearing_witness :
    (slTpImmediateCheck demoConfig (some 100) 5 ⟨(90, 90), 0⟩).lastFilledPrice = none
    ∧ (slTpCheck2 demoConfig (some 100) 5 ⟨(90, 90), true, 0⟩).lastFilledPrice = none
    ∧ (cycle demoConfig demoState envGlobalSl).1.lastFilledPrice = some 100
    ∧ (cycle demoConfig demoState envGlobalSl).1.shutdownRequested = true := by
  have h1 : slTpImmediateCheck demoConfig (some 100) 5 ⟨(90, 90), 0⟩
      = ⟨[Action.placeMarketOrder 5 Direction.sell, Action.sleepFor 1], none, 0⟩ := by
    norm_num [slTpImmediateCheck, demoConfig, TradingConfig.closeOrderSide, abs_of_pos]
  have h2 : slTpCheck2 demoConfig (some 100) 5 ⟨(90, 90), true, 0⟩
      = ⟨[Action.placeMarketOrder 5 Direction.sell, Action.sleepFor 1], none, 0⟩ := by
    norm_num [slTpCheck2, demoConfig, TradingConfig.closeOrderSide, abs_of_pos]
  have hpre : cyclePreGlobal demoConfig demoState envGlobalSl
      = ⟨[], some 100, 5, []⟩ := by
    rw [cyclePreGlobal]
    norm_num [demoState, envGlobalSl, slTpImmediateCheck, clearExistingPosition,
      slTpCheck2, demoConfig]
  have htrig : (globalSlTpCheck demoConfig
      (cyclePreGlobal demoConfig demoState envGlobalSl).lastFilledPrice
      (cyclePreGlobal demoConfig demoState envGlobalSl).positionAmt
      envGlobalSl.globalBbo).triggered = true := by
    rw [hpre]
    norm_num [globalSlTpCheck, envGlobalSl, demoConfig]
  have h3 := c9_market_close_price_clearing.2.2 demoConfig demoState envGlobalSl htrig
  refine ⟨?_, ?_, ?_, h3.2⟩
  · exact c9_market_close_price_clearing.1 demoConfig (some 100) 5 ⟨(90, 90), 0⟩
      ⟨5, Direction.sell, by rw [h1]; simp⟩
  · exact c9_market_close_price_clearing.2.1 demoConfig (some 100) 5 ⟨(90, 90), true, 0⟩
      rfl ⟨5, Direction.sell, by rw [h2]; simp⟩
  · rw [h3.1, hpre]

end PerpDex
